import Mathlib

/-!
# Verification of the my-kingbot task-orchestration and bridging layer

Shallow embedding of the repository's three source files:
* `src/src/api/src/utils/src/server.py` — the cross-thread bridge
  `run_coro_in_bot_loop` and the `BOT_DEMO` configuration logic;
* `src/src/api/pocket_option.py` — `PocketOptionClient` (connection manager);
* `src/src/api/src/utils/src/trading_bot.py` — `TradingBot` (task supervisor,
  loops, getters).

Python floats are modelled as rationals (`ℚ`); Python dicts keyed by strings
as association lists with replace-on-insert semantics; asyncio tasks as
handles carrying `cancelRequested` and `done` flags; coroutine bodies as
explicit functions of the shared state together with small step/outcome
types describing their control flow.
-/

/-- A Python dict entry insertion: assignment `d[k] = v` replaces an existing
binding of `k` in place, otherwise appends the new binding (insertion order). -/
def dictInsert (k : String) (v : α) : List (String × α) → List (String × α)
  | [] => [(k, v)]
  | (k', v') :: rest => if k' = k then (k, v) :: rest else (k', v') :: dictInsert k v rest

/-- Python's `l[-10:]`: the last (at most) 10 elements of a list. -/
def lastTen (l : List α) : List α := l.drop (l.length - 10)

/-! ## `server.py` — the cross-thread bridge (`run_coro_in_bot_loop`) -/

/-- A unit of asynchronous work submitted through the bridge:
how many seconds it takes to complete, and whether it finishes with a value
or raises an exception (carried as its message string). -/
structure Work (α : Type) where
  duration : Nat
  outcome : Except String α
deriving Repr

/-- What `run_coro_in_bot_loop` hands back to the route handler: either the
coroutine's raw result, or an `({"error": msg}, httpStatus)` tuple (the routes
distinguish the two with an `isinstance(result, tuple)` check). -/
inductive BridgeReturn (α : Type) where
  | ok (v : α)
  | errTuple (msg : String) (status : Nat)
deriving Repr, DecidableEq

/-- The full effect of one bridge call: the value returned to the caller and
whether the bridge terminated (cancelled) the underlying work. -/
structure BridgeOutcome (α : Type) where
  ret : BridgeReturn α
  workTerminated : Bool
deriving Repr

/-- `run_coro_in_bot_loop` (server.py lines 38-48): submit the coroutine to the
bot loop and wait on the future with a 10 second timeout.  If the work takes
longer than the budget, `future.result(timeout=10)` raises the timeout
exception, caught and turned into `({"error": "Async operation timed out"}, 504)`;
any other exception raised by the work is caught and turned into
`({"error": str(e)}, 500)`; otherwise the work's own result is returned.
The future is never cancelled on any path. -/
def run_coro_in_bot_loop (w : Work α) : BridgeOutcome α :=
  if 10 < w.duration then
    { ret := .errTuple "Async operation timed out" 504, workTerminated := false }
  else
    match w.outcome with
    | .ok v => { ret := .ok v, workTerminated := false }
    | .error e => { ret := .errTuple e 500, workTerminated := false }

/-- A bridge return value is a success payload. -/
def BridgeReturn.isSuccess : BridgeReturn α → Bool
  | .ok _ => true
  | .errTuple _ _ => false

/-- A bridge return value is the distinguishable timeout payload (HTTP 504). -/
def BridgeReturn.isTimeout : BridgeReturn α → Bool
  | .errTuple _ s => s = 504
  | .ok _ => false

/-- A bridge return value is the normalized error payload (HTTP 500). -/
def BridgeReturn.isFailure : BridgeReturn α → Bool
  | .errTuple _ s => s = 500
  | .ok _ => false

/-! ## `pocket_option.py` — `PocketOptionClient` (connection manager) -/

/-- A tournament record as the broker returns it. -/
structure Tournament where
  id : String
  name : String
  entry_fee : ℚ
  prize_pool : ℚ
  participants : Nat
  status : String
deriving Repr, DecidableEq

/-- The connection-manager state (`PocketOptionClient.__init__`). -/
structure PocketOptionClient where
  ssid : String
  demo : Bool
  connected : Bool
  balance : ℚ
  simulation_mode : Bool
deriving Repr, DecidableEq

namespace PocketOptionClient

/-- `PocketOptionClient.__init__`: `self.ssid = ssid or os.getenv("POCKET_OPTION_SSID", "")`
(an empty argument falls back to the environment variable), and
`self.simulation_mode = not POCKET_API_AVAILABLE or not self.ssid`.
`apiAvailable` models `POCKET_API_AVAILABLE` (whether the optional import of
the broker library succeeded). -/
def init (apiAvailable : Bool) (ssidArg envSsid : String) (demo : Bool) :
    PocketOptionClient :=
  let ssid := if ssidArg = "" then envSsid else ssidArg
  { ssid := ssid
    demo := demo
    connected := false
    balance := 0
    simulation_mode := !apiAvailable || ssid = "" }

/-- `connect` (pocket_option.py lines 32-50).  In simulation mode: set
`connected`, set the balance to `10000.0 if self.demo else 0`, return `True`,
touching no network.  In live mode the handshake with the remote service is
external; it is passed in as `handshake` (`some bal` = success returning the
live balance, `none` = any exception, caught and turned into `False`).
The second component of the result is the returned boolean, the third is
whether any network I/O was performed. -/
def connect (c : PocketOptionClient) (handshake : Option ℚ) :
    PocketOptionClient × Bool × Bool :=
  if c.simulation_mode then
    ({ c with connected := true, balance := if c.demo then 10000 else 0 }, true, false)
  else
    match handshake with
    | some bal => ({ c with connected := true, balance := bal }, true, true)
    | none => ({ c with connected := false }, false, true)

/-- `is_simulation` (pocket_option.py line 102). -/
def is_simulation (c : PocketOptionClient) : Bool := c.simulation_mode

end PocketOptionClient

/-- `BOT_DEMO` (server.py lines 24-27): `BOT_SSID = os.getenv("POCKET_OPTION_SSID")`;
demo mode is read from the `BOT_DEMO` environment variable only when an SSID
is present, and forced to `True` when `BOT_SSID` is `None` or empty. -/
def BOT_DEMO (bot_ssid : Option String) (env_bot_demo : String) : Bool :=
  if bot_ssid.getD "" = "" then true else env_bot_demo.toLower = "true"

/-! ## `trading_bot.py` — `TradingBot` (task supervisor and getters) -/

/-- An asyncio task handle as the supervisor sees it: whether `task.cancel()`
has been requested on it and whether the coroutine has finished. -/
structure TaskH where
  cancelRequested : Bool
  done : Bool
deriving Repr, DecidableEq

/-- A freshly created task (`loop.create_task(...)`): alive, not cancelled. -/
def TaskH.fresh : TaskH := { cancelRequested := false, done := false }

/-- One record of `self.trade_history`: a Python dict, of which the claims
only inspect the `"outcome"` key; `t.get("outcome")` is `none` when absent. -/
structure TradeRecord where
  outcome : Option String
deriving Repr, DecidableEq

/-- A market candle; its internal fields are opaque to the supervisor. -/
structure Candle where
  openP : ℚ
  closeP : ℚ
deriving Repr, DecidableEq

/-- The mutable state of `TradingBot` (constructor lines 17-43), restricted to
the fields the supervisor, the getters and the claims touch.  `loops` is the
task registry (a Python dict in insertion order); `market_data` maps an asset
name to its candle list (the `"candles"` key of the per-asset dict). -/
structure TradingBot where
  client : PocketOptionClient
  is_running : Bool
  is_learning : Bool
  is_trading : Bool
  current_asset : String
  current_timeframe : Nat
  market_data : List (String × List Candle)
  patterns_detected : List String
  levels_detected : List (String × ℚ)
  indicator_values : List (String × ℚ)
  trade_history : List TradeRecord
  trades_this_hour : Nat
  min_confidence : ℚ
  loops : List (String × TaskH)
deriving Repr, DecidableEq

namespace TradingBot

/-- `TradingBot.__init__(ssid, demo)` (lines 17-43): build the client, start
stopped with an empty registry, empty histories and `min_confidence = 0.75`. -/
def init (apiAvailable : Bool) (ssidArg envSsid : String) (demo : Bool) : TradingBot :=
  { client := PocketOptionClient.init apiAvailable ssidArg envSsid demo
    is_running := false
    is_learning := false
    is_trading := false
    current_asset := "EURUSD_otc"
    current_timeframe := 60
    market_data := []
    patterns_detected := []
    levels_detected := []
    indicator_values := []
    trade_history := []
    trades_this_hour := 0
    min_confidence := 0.75
    loops := [] }

/-- `start` (lines 45-64): if already running, warn and return unchanged;
otherwise set `is_running` and register the four loop tasks by dict
assignment, in source order `main`, `tournament`, `executor`, `learner`. -/
def start (b : TradingBot) : TradingBot :=
  if b.is_running then b
  else
    { b with
      is_running := true
      loops :=
        dictInsert "learner" TaskH.fresh
          (dictInsert "executor" TaskH.fresh
            (dictInsert "tournament" TaskH.fresh
              (dictInsert "main" TaskH.fresh b.loops))) }

/-- `is_running` read as the supervisor's running/stopped state
(`isRunning()` in the spec's vocabulary, reported by `get_status`). -/
def isRunning (b : TradingBot) : Bool := b.is_running

/-- `stop` (lines 106-120): a no-op when not running; otherwise clear
`is_running`, call `task.cancel()` on every registered task that is not done,
and reset the registry to `{}`.  The second component lists the names whose
tasks received a cancellation request, in registry order. -/
def stop (b : TradingBot) : TradingBot × List String :=
  if !b.is_running then (b, [])
  else
    ({ b with is_running := false, loops := [] },
      (b.loops.filter (fun p => !p.2.done)).map (fun p => p.1))

/-- Mark one registered task as finished (its coroutine returned or was torn
down); the registry keys are untouched. -/
def mark_task_done (name : String) (b : TradingBot) : TradingBot :=
  { b with
    loops := b.loops.map (fun p =>
      if p.1 = name then (p.1, { p.2 with done := true }) else p) }

/-- `_main_loop`'s failure path (lines 66-71): `self.client.connect()` returned
`False`, so set `is_running = False`, log, and `return` — which finishes the
`main` task.  No other field is touched: in particular no sibling task is
cancelled and the registry is not cleared. -/
def connect_fail (b : TradingBot) : TradingBot :=
  mark_task_done "main" { b with is_running := false }

/-- What a sibling loop does at the top of its `while self.is_running` check:
either exit the coroutine, or run one body iteration ending in an
interruptible sleep of the given number of seconds. -/
inductive SiblingStep where
  | exit
  | sleepThen (secs : Nat)
deriving Repr, DecidableEq

/-- `_trade_executor_loop` (lines 94-98): `while self.is_running: await asyncio.sleep(1)`. -/
def executor_loop_step (b : TradingBot) : SiblingStep :=
  if b.is_running then .sleepThen 1 else .exit

/-- `_knowledge_learner_loop` (lines 100-104): `while self.is_running: await asyncio.sleep(3600)`. -/
def learner_loop_step (b : TradingBot) : SiblingStep :=
  if b.is_running then .sleepThen 3600 else .exit

/-- `_tournament_loop`'s `while self.is_running` guard (line 81): whether the
loop runs another iteration of its try-block body. -/
def tournament_loop_guard (b : TradingBot) : Bool := b.is_running

/-- How one `join_daily_free_tournament()` invocation inside the tournament
loop's try-block can end. -/
inductive JoinOutcome where
  | ok
  | exc (msg : String)
  | cancelled
deriving Repr, DecidableEq

/-- What one iteration of the tournament loop body does next. -/
inductive LoopStep where
  | continueAfterSleep (secs : Nat)
  | raiseCancelled
deriving Repr, DecidableEq

/-- One iteration of `_tournament_loop`'s body (lines 82-92): on a normal
return from the join invocation, sleep 3600 s and go round again; on
`asyncio.CancelledError`, re-raise out of the loop; on any other exception,
log it, sleep 3600 s and go round again. -/
def tournament_loop_iter (o : JoinOutcome) : LoopStep :=
  match o with
  | .ok => .continueAfterSleep 3600
  | .cancelled => .raiseCancelled
  | .exc _ => .continueAfterSleep 3600

/-- `set_min_confidence` (lines 123-125): store `max(0.5, min(0.95, confidence))`. -/
def set_min_confidence (b : TradingBot) (confidence : ℚ) : TradingBot :=
  { b with min_confidence := max 0.5 (min 0.95 confidence) }

/-- The dict returned by `get_market_analysis` (lines 147-156). -/
structure MarketAnalysis where
  patterns : List String
  levels : List (String × ℚ)
  indicators : List (String × ℚ)
  trend : String
deriving Repr

/-- `get_market_analysis` (lines 147-156): `self.patterns_detected[:10]`, the
level and indicator maps, and the trend computed by the candlestick analyzer
(an external collaborator, passed in as `get_trend`) on
`self.market_data.get(self.current_asset, {}).get("candles", [])`. -/
def get_market_analysis (b : TradingBot) (get_trend : List Candle → String) :
    MarketAnalysis :=
  { patterns := b.patterns_detected.take 10
    levels := b.levels_detected
    indicators := b.indicator_values
    trend := get_trend ((b.market_data.lookup b.current_asset).getD []) }

/-- The dict returned by `get_trade_stats` (lines 158-166). -/
structure TradeStats where
  total_trades : Nat
  total_wins : Nat
  total_losses : Nat
  recent_trades : List TradeRecord
  win_rate : ℚ
deriving Repr, DecidableEq

/-- `get_trade_stats` (lines 158-166): totals, the exact-match win/loss
counts, `self.trade_history[-10:]`, and `wins / len(history)` guarded by the
emptiness check. -/
def get_trade_stats (b : TradingBot) : TradeStats :=
  { total_trades := b.trade_history.length
    total_wins := (b.trade_history.filter (fun t => t.outcome = some "win")).length
    total_losses := (b.trade_history.filter (fun t => t.outcome = some "loss")).length
    recent_trades := lastTen b.trade_history
    win_rate :=
      if 0 < b.trade_history.length then
        ((b.trade_history.filter (fun t => t.outcome = some "win")).length : ℚ) /
          (b.trade_history.length : ℚ)
      else 0 }

/-- The states of the supervisor reachable from a freshly constructed bot by
the lifecycle operations: `start()`, `stop()`, the connection loop's failure
path, and a registered task finishing. -/
inductive Reachable : TradingBot → Prop where
  | init (apiAvailable : Bool) (ssidArg envSsid : String) (demo : Bool) :
      Reachable (TradingBot.init apiAvailable ssidArg envSsid demo)
  | step_start {b : TradingBot} : Reachable b → Reachable (start b)
  | step_stop {b : TradingBot} : Reachable b → Reachable (stop b).1
  | step_connect_fail {b : TradingBot} : Reachable b → b.is_running = true →
      Reachable (connect_fail b)
  | step_task_done {b : TradingBot} (name : String) : Reachable b →
      Reachable (mark_task_done name b)

end TradingBot

/-! ## `TournamentManager` (imported from `src.utils.tournament`)

The class itself is not among the repository files; only its call sites are
(`trading_bot.py` line 84, `server.py` lines 68 and 93).  Its operations are
therefore modelled from the spec's §4.3 description. -/

namespace TournamentManager

/-- Modelled from the spec: `TournamentManager.get_all_active_free_tournaments`
(missing from the repository files; spec §4.3): fetch the full tournament list
from the broker collaborator and filter to `status == active AND entryFee == 0`;
on fetch failure (`fetched = none`) return an empty list, never raise. -/
def get_all_active_free_tournaments (fetched : Option (List Tournament)) :
    List Tournament :=
  (fetched.getD []).filter (fun t => t.status = "active" && t.entry_fee = 0)

/-- Modelled from the spec: the `DailyJoinState` record for tournament class
`"daily_free"` (the class owning it is missing from the repository files;
spec §3). -/
structure DailyJoinState where
  lastJoinEpoch : Int
deriving Repr, DecidableEq

/-- The observable effect of one `join_daily_free_tournament()` invocation:
its boolean return, the daily-join state after it, and how many real join
calls it made to the broker collaborator. -/
structure JoinEffect where
  returned : Bool
  state : TournamentManager.DailyJoinState
  brokerJoinCalls : Nat
deriving Repr, DecidableEq

/-- Modelled from the spec: `TournamentManager.join_daily_free_tournament`
(missing from the repository files; spec §4.3): look up `lastJoinEpoch` for
class `"daily_free"`; if `now − lastJoinEpoch < 4 hours`, skip and return
`False` with no broker call; otherwise select the first tournament from
`get_all_active_free_tournaments`, attempt `joinTournamentById` on it (the
broker collaborator's answer, already normalized to a boolean, is `brokerJoin`),
and on success update `lastJoinEpoch` to `now`. -/
def join_daily_free_tournament (now : Int) (st : DailyJoinState)
    (fetched : Option (List Tournament)) (brokerJoin : String → Bool) : JoinEffect :=
  if now - st.lastJoinEpoch < 4 * 3600 then
    { returned := false, state := st, brokerJoinCalls := 0 }
  else
    match get_all_active_free_tournaments fetched with
    | [] => { returned := false, state := st, brokerJoinCalls := 0 }
    | t :: _ =>
      let ok := brokerJoin t.id
      { returned := ok
        state := if ok then { lastJoinEpoch := now } else st
        brokerJoinCalls := 1 }

end TournamentManager

/-! ## Concrete states used by the witnesses and counterexamples -/

/-- A concrete trading-bot state: fresh construction in simulation mode
(API available, no SSID anywhere, demo). -/
def bot0 : TradingBot := TradingBot.init true "" "" true

/-- A bot state with eleven detected patterns, oldest first. -/
def botElevenPatterns : TradingBot :=
  { bot0 with patterns_detected :=
      ["p0", "p1", "p2", "p3", "p4", "p5", "p6", "p7", "p8", "p9", "p10"] }

/-- The supervisor state reached by starting the fresh bot and then having the
connection loop's `connect()` call fail. -/
def botConnectFailed : TradingBot := TradingBot.connect_fail (TradingBot.start bot0)

/-- The tournament record `pocket_option.py` serves in simulation mode. -/
def simTournament : Tournament :=
  { id := "sim_tournament_1", name := "Daily Free Tournament", entry_fee := 0,
    prize_pool := 100, participants := 50, status := "active" }

/-! ## Helper lemmas -/

/-- Inserting a key already present in the dict leaves the key sequence unchanged. -/
theorem map_fst_dictInsert_of_mem (k : String) (v : α) (l : List (String × α))
    (h : k ∈ l.map Prod.fst) : (dictInsert k v l).map Prod.fst = l.map Prod.fst := by
  induction l with
  | nil => simp at h
  | cons p rest ih =>
    simp only [dictInsert]
    by_cases hk : p.1 = k
    · simp [hk]
    · simp only [List.map_cons] at h ⊢
      rcases List.mem_cons.mp h with h | h
      · exact absurd h.symm hk
      · simp [if_neg hk, ih h]

/-- Marking a task done does not change the registry's key sequence. -/
theorem map_fst_mark_task_done (name : String) (b : TradingBot) :
    (TradingBot.mark_task_done name b).loops.map Prod.fst = b.loops.map Prod.fst := by
  simp only [TradingBot.mark_task_done, List.map_map]
  apply List.map_congr_left
  intro p _
  by_cases h : p.1 = name <;> simp [h]

/-- Marking a task done does not change any task's cancellation flag. -/
theorem cancel_map_mark_task_done (name : String) (b : TradingBot) :
    (TradingBot.mark_task_done name b).loops.map (fun p => (p.1, p.2.cancelRequested)) =
      b.loops.map (fun p => (p.1, p.2.cancelRequested)) := by
  simp only [TradingBot.mark_task_done, List.map_map]
  apply List.map_congr_left
  intro p _
  by_cases h : p.1 = name <;> simp [h]

/-- Two pointwise-incompatible Boolean predicates together select at most the
whole list. -/
theorem countP_disjoint_le (l : List α) (p q : α → Bool)
    (h : ∀ a, ¬(p a = true ∧ q a = true)) :
    l.countP p + l.countP q ≤ l.length := by
  induction l with
  | nil => simp
  | cons a rest ih =>
    simp only [List.countP_cons, List.length_cons]
    by_cases hp : p a = true
    · have hq : ¬ q a = true := fun hq => h a ⟨hp, hq⟩
      simp [hp, hq]
      omega
    · simp [hp]
      by_cases hq : q a = true <;> simp [hq] <;> omega

/-! ## Claim theorems -/

/-- C7: for every input `x`, `setMinConfidence(x)` stores the clamp of `x`
into `[0.50, 0.95]` (out-of-range input is clamped, never rejected), and on
the inputs `{-1, 0.3, 0.5, 0.7, 0.95, 2}` it stores
`{0.5, 0.5, 0.5, 0.7, 0.95, 0.95}`. -/
theorem set_min_confidence_clamps (b : TradingBot) (x : ℚ) :
    ((TradingBot.set_min_confidence b x).min_confidence =
      if x < 0.5 then 0.5 else if 0.95 < x then 0.95 else x) ∧
    0.5 ≤ (TradingBot.set_min_confidence b x).min_confidence ∧
    (TradingBot.set_min_confidence b x).min_confidence ≤ 0.95 ∧
    (TradingBot.set_min_confidence b (-1)).min_confidence = 0.5 ∧
    (TradingBot.set_min_confidence b 0.3).min_confidence = 0.5 ∧
    (TradingBot.set_min_confidence b 0.5).min_confidence = 0.5 ∧
    (TradingBot.set_min_confidence b 0.7).min_confidence = 0.7 ∧
    (TradingBot.set_min_confidence b 0.95).min_confidence = 0.95 ∧
    (TradingBot.set_min_confidence b 2).min_confidence = 0.95 := by
  have key : ∀ y : ℚ, max 0.5 (min 0.95 y) =
      if y < 0.5 then 0.5 else if 0.95 < y then 0.95 else y := by
    intro y
    rcases lt_or_le y 0.5 with h | h
    · rw [if_pos h, min_eq_right (by linarith : y ≤ 0.95), max_eq_left (by linarith)]
    · rw [if_neg (not_lt.mpr h)]
      rcases lt_or_le 0.95 y with h2 | h2
      · rw [if_pos h2, min_eq_left (by linarith), max_eq_right (by norm_num)]
      · rw [if_neg (not_lt.mpr h2), min_eq_right h2, max_eq_right h]
  refine ⟨key x, le_max_left _ _, max_le (by norm_num) (min_le_left _ _),
    ?_, ?_, ?_, ?_, ?_, ?_⟩
  · show max (0.5:ℚ) (min 0.95 (-1)) = 0.5
    norm_num
  · show max (0.5:ℚ) (min 0.95 0.3) = 0.5
    norm_num
  · show max (0.5:ℚ) (min 0.95 0.5) = 0.5
    norm_num
  · show max (0.5:ℚ) (min 0.95 0.7) = 0.7
    norm_num
  · show max (0.5:ℚ) (min 0.95 0.95) = 0.95
    norm_num
  · show max (0.5:ℚ) (min 0.95 2) = 0.95
    norm_num

/-- C5: one iteration of the tournament loop re-raises a cancellation signal
(and only a cancellation signal) out of the loop, while any other exception
from the daily-join invocation — like a normal return — leads to the 1-hour
wait and another iteration rather than terminating the loop. -/
theorem tournament_loop_error_isolation :
    TradingBot.tournament_loop_iter .cancelled = .raiseCancelled ∧
    (∀ o, o ≠ TradingBot.JoinOutcome.cancelled →
      TradingBot.tournament_loop_iter o = .continueAfterSleep 3600) ∧
    (∀ o, TradingBot.tournament_loop_iter o = .raiseCancelled →
      o = TradingBot.JoinOutcome.cancelled) := by
  refine ⟨rfl, ?_, ?_⟩ <;> intro o <;> cases o <;>
    simp [TradingBot.tournament_loop_iter]

/-- C5 witness: an ordinary exception from the join invocation is absorbed
and followed by the 1-hour wait, while a cancellation signal is re-raised. -/
theorem tournament_loop_error_isolation_witness :
    TradingBot.tournament_loop_iter (.exc "boom") = .continueAfterSleep 3600 ∧
    TradingBot.tournament_loop_iter .cancelled = .raiseCancelled :=
  ⟨tournament_loop_error_isolation.2.1 (.exc "boom") (by simp),
    tournament_loop_error_isolation.1⟩

/-- C9 counterexample: with eleven patterns in the detected-pattern list, the
marketAnalysis query returns the FIRST ten entries (`patterns_detected[:10]`),
which are not the last ten entries of the list. -/
theorem market_analysis_not_last_ten :
    (TradingBot.get_market_analysis botElevenPatterns (fun _ => "sideways")).patterns ≠
      lastTen botElevenPatterns.patterns_detected ∧
    (TradingBot.get_market_analysis botElevenPatterns (fun _ => "sideways")).patterns =
      ["p0", "p1", "p2", "p3", "p4", "p5", "p6", "p7", "p8", "p9"] ∧
    lastTen botElevenPatterns.patterns_detected =
      ["p1", "p2", "p3", "p4", "p5", "p6", "p7", "p8", "p9", "p10"] := by
  refine ⟨?_, rfl, rfl⟩
  decide

/-- C9 amended: the marketAnalysis query returns the first (at most) ten
entries of the detected-pattern list — a prefix, bounded to length 10, and the
whole list whenever it holds at most ten patterns — not the last ten. -/
theorem market_analysis_first_ten (b : TradingBot) (get_trend : List Candle → String) :
    (TradingBot.get_market_analysis b get_trend).patterns = b.patterns_detected.take 10 ∧
    (TradingBot.get_market_analysis b get_trend).patterns.length =
      min 10 b.patterns_detected.length ∧
    (b.patterns_detected.length ≤ 10 →
      (TradingBot.get_market_analysis b get_trend).patterns = b.patterns_detected) := by
  refine ⟨rfl, ?_, ?_⟩
  · simp [TradingBot.get_market_analysis]
  · intro h
    simp [TradingBot.get_market_analysis, List.take_of_length_le h]

/-- C9 amended witness: a two-pattern list is returned whole. -/
theorem market_analysis_first_ten_witness :
    (TradingBot.get_market_analysis
        { bot0 with patterns_detected := ["a", "b"] } (fun _ => "up")).patterns =
      ["a", "b"] :=
  (market_analysis_first_ten { bot0 with patterns_detected := ["a", "b"] }
    (fun _ => "up")).2.2 (by decide)

/-- C10: the trade statistics count as wins exactly the records whose outcome
is the string "win" and as losses exactly those whose outcome is "loss"; every
record — whatever its outcome — contributes to `total_trades` and to the
win-rate denominator, so `total_wins + total_losses ≤ total_trades`. -/
theorem trade_stats_outcome_counts (b : TradingBot) :
    (TradingBot.get_trade_stats b).total_trades = b.trade_history.length ∧
    (TradingBot.get_trade_stats b).total_wins =
      b.trade_history.countP (fun t => t.outcome = some "win") ∧
    (TradingBot.get_trade_stats b).total_losses =
      b.trade_history.countP (fun t => t.outcome = some "loss") ∧
    (TradingBot.get_trade_stats b).total_wins + (TradingBot.get_trade_stats b).total_losses ≤
      (TradingBot.get_trade_stats b).total_trades ∧
    (0 < b.trade_history.length →
      (TradingBot.get_trade_stats b).win_rate =
        ((TradingBot.get_trade_stats b).total_wins : ℚ) /
          ((TradingBot.get_trade_stats b).total_trades : ℚ)) := by
  refine ⟨rfl, ?_, ?_, ?_, ?_⟩
  · simp [TradingBot.get_trade_stats, List.countP_eq_length_filter]
  · simp [TradingBot.get_trade_stats, List.countP_eq_length_filter]
  · have h := countP_disjoint_le b.trade_history
      (fun t => t.outcome = some "win") (fun t => t.outcome = some "loss")
      (by
        intro t ht
        rcases ht with ⟨h1, h2⟩
        simp only [decide_eq_true_eq] at h1 h2
        rw [h1] at h2
        simp at h2)
    simpa [TradingBot.get_trade_stats, List.countP_eq_length_filter] using h
  · intro h
    simp [TradingBot.get_trade_stats, h]

/-- C10 witness: on the history `[win, draw, loss]` the draw record counts in
`total_trades` and in the win-rate denominator but in neither win nor loss
count, and the inequality holds strictly. -/
theorem trade_stats_outcome_counts_witness :
    (TradingBot.get_trade_stats
        { bot0 with trade_history := [⟨some "win"⟩, ⟨some "draw"⟩, ⟨some "loss"⟩] }).win_rate =
      ((TradingBot.get_trade_stats
        { bot0 with trade_history := [⟨some "win"⟩, ⟨some "draw"⟩, ⟨some "loss"⟩] }).total_wins : ℚ) /
        ((TradingBot.get_trade_stats
          { bot0 with trade_history := [⟨some "win"⟩, ⟨some "draw"⟩, ⟨some "loss"⟩] }).total_trades : ℚ) ∧
    (TradingBot.get_trade_stats
        { bot0 with trade_history := [⟨some "win"⟩, ⟨some "draw"⟩, ⟨some "loss"⟩] }).total_wins +
      (TradingBot.get_trade_stats
        { bot0 with trade_history := [⟨some "win"⟩, ⟨some "draw"⟩, ⟨some "loss"⟩] }).total_losses ≤
      (TradingBot.get_trade_stats
        { bot0 with trade_history := [⟨some "win"⟩, ⟨some "draw"⟩, ⟨some "loss"⟩] }).total_trades :=
  ⟨(trade_stats_outcome_counts
      { bot0 with trade_history := [⟨some "win"⟩, ⟨some "draw"⟩, ⟨some "loss"⟩] }).2.2.2.2
      (by decide),
    (trade_stats_outcome_counts
      { bot0 with trade_history := [⟨some "win"⟩, ⟨some "draw"⟩, ⟨some "loss"⟩] }).2.2.2.1⟩

/-- C1: the bridge never terminates the submitted work; work completing within
the 10-second budget comes back as its own result with the success status;
work exceeding the budget comes back as the distinguishable timeout payload
with status 504 while the work itself is left running; and a failure raised by
the work is caught and normalized to the `{"error": msg}` payload with status
500 — the bridge's return is always one of these three shapes, so no raw
exception reaches the calling context. -/
theorem bridge_submit_normalizes {α : Type} (w : Work α) :
    (run_coro_in_bot_loop w).workTerminated = false ∧
    (∀ v : α, w.duration ≤ 10 → w.outcome = .ok v →
      (run_coro_in_bot_loop w).ret = .ok v ∧
      ((run_coro_in_bot_loop w).ret).isSuccess = true) ∧
    (10 < w.duration →
      (run_coro_in_bot_loop w).ret = .errTuple "Async operation timed out" 504 ∧
      ((run_coro_in_bot_loop w).ret).isTimeout = true) ∧
    (∀ e : String, w.duration ≤ 10 → w.outcome = .error e →
      (run_coro_in_bot_loop w).ret = .errTuple e 500 ∧
      ((run_coro_in_bot_loop w).ret).isFailure = true) := by
  refine ⟨?_, ?_, ?_, ?_⟩
  · unfold run_coro_in_bot_loop
    split
    · rfl
    · cases w.outcome <;> rfl
  · intro v hle hok
    have hnot : ¬ 10 < w.duration := not_lt.mpr hle
    simp [run_coro_in_bot_loop, hnot, hok, BridgeReturn.isSuccess]
  · intro hgt
    simp [run_coro_in_bot_loop, hgt, BridgeReturn.isTimeout]
  · intro e hle herr
    have hnot : ¬ 10 < w.duration := not_lt.mpr hle
    simp [run_coro_in_bot_loop, hnot, herr, BridgeReturn.isFailure]

/-- C1 witness: the spec's two scenarios — 15-second work against the
10-second budget comes back as the timeout status with the work left running,
and 2-second work comes back as its own result with the success status. -/
theorem bridge_submit_normalizes_witness :
    (run_coro_in_bot_loop { duration := 15, outcome := .ok 7 : Work Nat }).ret =
      .errTuple "Async operation timed out" 504 ∧
    (run_coro_in_bot_loop { duration := 15, outcome := .ok 7 : Work Nat }).workTerminated =
      false ∧
    (run_coro_in_bot_loop { duration := 2, outcome := .ok 7 : Work Nat }).ret = .ok 7 :=
  ⟨((bridge_submit_normalizes { duration := 15, outcome := .ok 7 }).2.2.1 (by decide)).1,
    (bridge_submit_normalizes { duration := 15, outcome := .ok 7 }).1,
    ((bridge_submit_normalizes { duration := 2, outcome := .ok 7 }).2.1 7 (by decide) rfl).1⟩

/-- C8: with no session credential (from the argument or the environment) or
with the broker library unavailable, the client is fixed in simulation mode;
`connect()` then returns `True` with no network I/O and sets the balance to
`10000.0` in demo mode and `0` otherwise — and the server configuration forces
demo mode whenever no credential is present. -/
theorem no_credential_simulation_connect (apiAvailable : Bool)
    (ssidArg envSsid : String) (demo : Bool) (handshake : Option ℚ)
    (h : (if ssidArg = "" then envSsid else ssidArg) = "" ∨ apiAvailable = false) :
    (PocketOptionClient.init apiAvailable ssidArg envSsid demo).is_simulation = true ∧
    ((PocketOptionClient.init apiAvailable ssidArg envSsid demo).connect handshake).2.1 =
      true ∧
    ((PocketOptionClient.init apiAvailable ssidArg envSsid demo).connect handshake).2.2 =
      false ∧
    ((PocketOptionClient.init apiAvailable ssidArg envSsid demo).connect handshake).1.balance =
      (if demo then (10000 : ℚ) else 0) ∧
    ((PocketOptionClient.init apiAvailable ssidArg envSsid demo).connect handshake).1.connected =
      true ∧
    (∀ envDemo : String, BOT_DEMO none envDemo = true ∧ BOT_DEMO (some "") envDemo = true) := by
  have hsim : (PocketOptionClient.init apiAvailable ssidArg envSsid demo).simulation_mode =
      true := by
    rcases h with h | h <;> simp [PocketOptionClient.init, h]
  have hconn : (PocketOptionClient.init apiAvailable ssidArg envSsid demo).connect handshake =
      ({ PocketOptionClient.init apiAvailable ssidArg envSsid demo with
          connected := true, balance := if demo then 10000 else 0 }, true, false) := by
    unfold PocketOptionClient.connect
    rw [hsim]
    simp [PocketOptionClient.init]
    tauto
  refine ⟨hsim, ?_, ?_, ?_, ?_, ?_⟩
  · rw [hconn]
  · rw [hconn]
  · rw [hconn]
  · rw [hconn]
  · intro envDemo
    refine ⟨rfl, rfl⟩

/-- C8 witness: API available but no credential anywhere, demo mode: the
client simulates, `connect()` succeeds without touching the network, and the
balance becomes 10000. -/
theorem no_credential_simulation_connect_witness :
    (PocketOptionClient.init true "" "" true).is_simulation = true ∧
    ((PocketOptionClient.init true "" "" true).connect none).2.1 = true ∧
    ((PocketOptionClient.init true "" "" true).connect none).2.2 = false ∧
    ((PocketOptionClient.init true "" "" true).connect none).1.balance = 10000 := by
  have h := no_credential_simulation_connect true "" "" true none (Or.inl (by decide))
  exact ⟨h.1, h.2.1, h.2.2.1, h.2.2.2.1⟩

/-- C4: from a stopped state with an empty registry, `start()` then `stop()`
requests cancellation of exactly the four registered tasks (in registration
order), clears the registry, and leaves the supervisor stopped, and `stop()`
invoked while already stopped changes nothing and cancels nothing. -/
theorem stop_cancels_clears_idempotent (b : TradingBot)
    (h1 : b.is_running = false) (h2 : b.loops = []) :
    (TradingBot.stop (TradingBot.start b)).2 =
      ["main", "tournament", "executor", "learner"] ∧
    (TradingBot.stop (TradingBot.start b)).1.loops = [] ∧
    TradingBot.isRunning (TradingBot.stop (TradingBot.start b)).1 = false ∧
    TradingBot.stop b = (b, []) := by
  have hstart : TradingBot.start b =
      { b with
          is_running := true
          loops := [("main", TaskH.fresh), ("tournament", TaskH.fresh),
            ("executor", TaskH.fresh), ("learner", TaskH.fresh)] } := by
    unfold TradingBot.start
    rw [h1, h2]
    simp [dictInsert]
  refine ⟨?_, ?_, ?_, ?_⟩
  · rw [hstart]
    simp [TradingBot.stop, TaskH.fresh]
  · rw [hstart]
    simp [TradingBot.stop]
  · rw [hstart]
    simp [TradingBot.stop, TradingBot.isRunning]
  · simp [TradingBot.stop, h1]

/-- C4 witness: on a freshly constructed bot, `start()` then `stop()` cancels
the four loops, empties the registry and reports not running; `stop()` on the
fresh bot alone is a no-op. -/
theorem stop_cancels_clears_idempotent_witness :
    (TradingBot.stop (TradingBot.start bot0)).2 =
      ["main", "tournament", "executor", "learner"] ∧
    (TradingBot.stop (TradingBot.start bot0)).1.loops = [] ∧
    TradingBot.isRunning (TradingBot.stop (TradingBot.start bot0)).1 = false ∧
    TradingBot.stop bot0 = (bot0, []) :=
  stop_cancels_clears_idempotent bot0 (by decide) (by decide)

/-- C3 counterexample: the state reached by `start()` followed by the
connection loop's failure path is a reachable state in which the supervisor is
stopped yet the registry still holds all four entries — so "while it is
stopped the registry is empty" does not hold of every reachable state. -/
theorem registry_nonempty_while_stopped :
    TradingBot.Reachable botConnectFailed ∧
    botConnectFailed.is_running = false ∧
    botConnectFailed.loops ≠ [] ∧
    botConnectFailed.loops.map Prod.fst =
      ["main", "tournament", "executor", "learner"] := by
  refine ⟨?_, by decide, by decide, by decide⟩
  exact TradingBot.Reachable.step_connect_fail
    (TradingBot.Reachable.step_start (TradingBot.Reachable.init true "" "" true))
    (by decide)

/-- C3 amended: in every reachable state the registry holds exactly one entry
per loop name — the four names `main`, `tournament`, `executor`, `learner` in
registration order — whenever the supervisor is running; while it is stopped
the registry is either empty (after `stop()`, or initially) or still holds
exactly those four entries (when the stop came from the connection loop's
failure path, which does not clear the registry). -/
theorem reachable_registry_invariant (b : TradingBot) (h : TradingBot.Reachable b) :
    (b.is_running = true →
      b.loops.map Prod.fst = ["main", "tournament", "executor", "learner"]) ∧
    (b.is_running = false →
      b.loops = [] ∨
        b.loops.map Prod.fst = ["main", "tournament", "executor", "learner"]) := by
  induction h with
  | init apiAvailable ssidArg envSsid demo =>
    simp [TradingBot.init]
  | step_start hb ih =>
    rename_i b'
    by_cases hr : b'.is_running = true
    · simpa [TradingBot.start, hr] using ih
    · have hr' : b'.is_running = false := by
        revert hr
        cases b'.is_running <;> simp
      rcases ih.2 hr' with hempty | hnames
      · unfold TradingBot.start
        rw [hr', hempty]
        simp [dictInsert]
      · unfold TradingBot.start
        rw [hr']
        simp only [Bool.false_eq_true, if_false]
        have hmain : ("main" : String) ∈ b'.loops.map Prod.fst := by
          rw [hnames]; simp
        have h1 := map_fst_dictInsert_of_mem "main" TaskH.fresh b'.loops hmain
        have htour : ("tournament" : String) ∈
            (dictInsert "main" TaskH.fresh b'.loops).map Prod.fst := by
          rw [h1, hnames]; simp
        have h2 := map_fst_dictInsert_of_mem "tournament" TaskH.fresh _ htour
        have hexec : ("executor" : String) ∈
            (dictInsert "tournament" TaskH.fresh
              (dictInsert "main" TaskH.fresh b'.loops)).map Prod.fst := by
          rw [h2, h1, hnames]; simp
        have h3 := map_fst_dictInsert_of_mem "executor" TaskH.fresh _ hexec
        have hlearn : ("learner" : String) ∈
            (dictInsert "executor" TaskH.fresh
              (dictInsert "tournament" TaskH.fresh
                (dictInsert "main" TaskH.fresh b'.loops))).map Prod.fst := by
          rw [h3, h2, h1, hnames]; simp
        have h4 := map_fst_dictInsert_of_mem "learner" TaskH.fresh _ hlearn
        constructor
        · intro _
          rw [h4, h3, h2, h1, hnames]
        · intro hcontra
          simp at hcontra
  | step_stop hb ih =>
    rename_i b'
    by_cases hr : b'.is_running = true
    · simp [TradingBot.stop, hr]
    · have hr' : b'.is_running = false := by
        revert hr
        cases b'.is_running <;> simp
      simpa [TradingBot.stop, hr'] using ih
  | step_connect_fail hb hrun ih =>
    rename_i b'
    have hnames := ih.1 hrun
    unfold TradingBot.connect_fail
    constructor
    · intro hcontra
      simp [TradingBot.mark_task_done] at hcontra
    · intro _
      right
      rw [map_fst_mark_task_done]
      simpa using hnames
  | step_task_done name hb ih =>
    rename_i b'
    constructor
    · intro hrun
      rw [map_fst_mark_task_done]
      exact ih.1 (by simpa [TradingBot.mark_task_done] using hrun)
    · intro hstop
      rcases ih.2 (by simpa [TradingBot.mark_task_done] using hstop) with hempty | hnames
      · left
        simp [TradingBot.mark_task_done, hempty]
      · right
        rw [map_fst_mark_task_done]
        exact hnames

/-- C3 amended witness: the started fresh bot is reachable and running, and
its registry holds exactly the four loop names. -/
theorem reachable_registry_invariant_witness :
    (TradingBot.start bot0).loops.map Prod.fst =
      ["main", "tournament", "executor", "learner"] :=
  (reachable_registry_invariant (TradingBot.start bot0)
    (TradingBot.Reachable.step_start (TradingBot.Reachable.init true "" "" true))).1
    (by decide)

/-- C2 counterexample: after `start()` and a failing `connect()`, the state is
Stopped and the connection loop has terminated, but the three sibling loops
were never cancelled — every registered task still has `cancelRequested =
false`, the siblings are not done, and `stop()` (the only operation that
cancels tasks) is now a no-op that cancels nothing. -/
theorem connect_fail_leaves_siblings_uncancelled :
    botConnectFailed.is_running = false ∧
    botConnectFailed.loops.map (fun p => (p.1, p.2.cancelRequested, p.2.done)) =
      [("main", false, true), ("tournament", false, false),
        ("executor", false, false), ("learner", false, false)] ∧
    (TradingBot.stop botConnectFailed).2 = [] ∧
    (TradingBot.stop botConnectFailed).1 = botConnectFailed := by
  refine ⟨by decide, by decide, by decide, ?_⟩
  rfl

/-- C2 amended: when the connection loop's `connect()` call fails, the loop
flips the state to Stopped and terminates, but the supervisor issues no
cancellation to the tournament, executor and learner loops (their handles keep
`cancelRequested` unchanged and `stop()` becomes a no-op); the siblings are
not orphaned forever only because each one's `while is_running` guard observes
the Stopped state at its next check and exits on its own. -/
theorem connect_fail_coordinated_shutdown (b : TradingBot) :
    (TradingBot.connect_fail b).is_running = false ∧
    TradingBot.isRunning (TradingBot.connect_fail b) = false ∧
    ((TradingBot.connect_fail b).loops.map (fun p => (p.1, p.2.cancelRequested)) =
      b.loops.map (fun p => (p.1, p.2.cancelRequested))) ∧
    TradingBot.stop (TradingBot.connect_fail b) = (TradingBot.connect_fail b, []) ∧
    TradingBot.executor_loop_step (TradingBot.connect_fail b) = .exit ∧
    TradingBot.learner_loop_step (TradingBot.connect_fail b) = .exit ∧
    TradingBot.tournament_loop_guard (TradingBot.connect_fail b) = false := by
  have hrun : (TradingBot.connect_fail b).is_running = false := by
    simp [TradingBot.connect_fail, TradingBot.mark_task_done]
  refine ⟨hrun, hrun, ?_, ?_, ?_, ?_, ?_⟩
  · exact cancel_map_mark_task_done "main" { b with is_running := false }
  · simp [TradingBot.stop, hrun]
  · simp [TradingBot.executor_loop_step, hrun]
  · simp [TradingBot.learner_loop_step, hrun]
  · simp [TradingBot.tournament_loop_guard, hrun]

/-- C6 counterexample: with a broker whose join call fails, two invocations of
`joinDailyFreeTournament()` only one hour apart each make a real join call —
the first failed attempt does not update `lastJoinEpoch`, so the second
invocation is not rate-limited and the pair makes two broker join calls. -/
theorem two_real_joins_within_window :
    (3600 : Int) - 0 < 4 * 3600 ∧
    (TournamentManager.join_daily_free_tournament 0 { lastJoinEpoch := -100000 }
        (some [simTournament]) (fun _ => false)).brokerJoinCalls = 1 ∧
    (TournamentManager.join_daily_free_tournament 3600
        (TournamentManager.join_daily_free_tournament 0 { lastJoinEpoch := -100000 }
          (some [simTournament]) (fun _ => false)).state
        (some [simTournament]) (fun _ => false)).brokerJoinCalls = 1 := by
  refine ⟨by decide, by decide, by decide⟩

/-- Inside the 4-hour window the daily join skips: it returns `false`, leaves
the state alone, and makes no broker call. -/
theorem join_daily_skip (now : Int) (st : TournamentManager.DailyJoinState)
    (f : Option (List Tournament)) (bj : String → Bool)
    (h : now - st.lastJoinEpoch < 4 * 3600) :
    TournamentManager.join_daily_free_tournament now st f bj =
      { returned := false, state := st, brokerJoinCalls := 0 } := by
  unfold TournamentManager.join_daily_free_tournament
  rw [if_pos h]

/-- A daily-join invocation that returns `true` has recorded its own epoch. -/
theorem join_daily_state_after (now : Int) (st : TournamentManager.DailyJoinState)
    (f : Option (List Tournament)) (bj : String → Bool)
    (h : (TournamentManager.join_daily_free_tournament now st f bj).returned = true) :
    (TournamentManager.join_daily_free_tournament now st f bj).state =
      { lastJoinEpoch := now } := by
  unfold TournamentManager.join_daily_free_tournament at h ⊢
  split at h
  · simp at h
  · rename_i hge
    rw [if_neg hge]
    cases hlist : TournamentManager.get_all_active_free_tournaments f with
    | nil =>
      rw [hlist] at h
      simp at h
    | cons t rest =>
      rw [hlist] at h
      simp at h
      simp [h]

/-- Outside the 4-hour window, with an active free tournament on offer, the
daily join makes exactly one broker join call. -/
theorem join_daily_attempts (now : Int) (st : TournamentManager.DailyJoinState)
    (f : Option (List Tournament)) (bj : String → Bool)
    (h1 : ¬ now - st.lastJoinEpoch < 4 * 3600)
    (h2 : TournamentManager.get_all_active_free_tournaments f ≠ []) :
    (TournamentManager.join_daily_free_tournament now st f bj).brokerJoinCalls = 1 := by
  unfold TournamentManager.join_daily_free_tournament
  rw [if_neg h1]
  cases hlist : TournamentManager.get_all_active_free_tournaments f with
  | nil => exact absurd hlist h2
  | cons t rest => simp

/-- C6 amended: an invocation within 4 hours of `lastJoinEpoch` skips —
returning `false`, contacting no broker and changing no state; otherwise the
first active free tournament is attempted and `lastJoinEpoch` is updated
exactly when that join succeeds.  Hence two invocations less than 4 hours
apart make at most one real join call provided the first one did not end in a
failed join attempt — in particular after a successful first join — and an
invocation at least 4 hours after a successful one (with an active free
tournament available) performs a second real join. -/
theorem join_daily_free_rate_limited (t1 t2 : Int)
    (st : TournamentManager.DailyJoinState) (f1 f2 : Option (List Tournament))
    (bj1 bj2 : String → Bool) :
    (t1 - st.lastJoinEpoch < 4 * 3600 →
      TournamentManager.join_daily_free_tournament t1 st f1 bj1 =
        { returned := false, state := st, brokerJoinCalls := 0 }) ∧
    ((TournamentManager.join_daily_free_tournament t1 st f1 bj1).returned = true →
      t2 - t1 < 4 * 3600 →
      (TournamentManager.join_daily_free_tournament t2
        (TournamentManager.join_daily_free_tournament t1 st f1 bj1).state f2 bj2) =
        { returned := false,
          state := (TournamentManager.join_daily_free_tournament t1 st f1 bj1).state,
          brokerJoinCalls := 0 }) ∧
    ((TournamentManager.join_daily_free_tournament t1 st f1 bj1).returned = true →
      4 * 3600 ≤ t2 - t1 →
      TournamentManager.get_all_active_free_tournaments f2 ≠ [] →
      (TournamentManager.join_daily_free_tournament t2
        (TournamentManager.join_daily_free_tournament t1 st f1 bj1).state
        f2 bj2).brokerJoinCalls = 1) := by
  refine ⟨fun h => join_daily_skip t1 st f1 bj1 h, ?_, ?_⟩
  · intro hret hlt
    have hst := join_daily_state_after t1 st f1 bj1 hret
    apply join_daily_skip
    rw [hst]
    exact hlt
  · intro hret hge hnonempty
    have hst := join_daily_state_after t1 st f1 bj1 hret
    apply join_daily_attempts
    · rw [hst]
      exact not_lt.mpr hge
    · exact hnonempty

/-- C6 amended witness: the spec's simulated-clock scenario with a succeeding
broker — a first real join at epoch 0, a second invocation one hour later
makes no broker call, and a third invocation four hours later makes a second
real join. -/
theorem join_daily_free_rate_limited_witness :
    (TournamentManager.join_daily_free_tournament 3600
      (TournamentManager.join_daily_free_tournament 0 { lastJoinEpoch := -100000 }
        (some [simTournament]) (fun _ => true)).state
      (some [simTournament]) (fun _ => true)) =
      { returned := false,
        state := (TournamentManager.join_daily_free_tournament 0 { lastJoinEpoch := -100000 }
          (some [simTournament]) (fun _ => true)).state,
        brokerJoinCalls := 0 } ∧
    (TournamentManager.join_daily_free_tournament 14400
      (TournamentManager.join_daily_free_tournament 0 { lastJoinEpoch := -100000 }
        (some [simTournament]) (fun _ => true)).state
      (some [simTournament]) (fun _ => true)).brokerJoinCalls = 1 :=
  ⟨(join_daily_free_rate_limited 0 3600 { lastJoinEpoch := -100000 }
      (some [simTournament]) (some [simTournament]) (fun _ => true) (fun _ => true)).2.1
      (by decide) (by decide),
    (join_daily_free_rate_limited 0 14400 { lastJoinEpoch := -100000 }
      (some [simTournament]) (some [simTournament]) (fun _ => true) (fun _ => true)).2.2
      (by decide) (by decide) (by decide)⟩
